import Mathlib

/-!
Shallow embedding of the zigbee2mqtt automations extension
(dist/automations-extension-2.yaml, the timer-capable variant, with
src/automations-extension.ts as the simpler sibling).

Modelling conventions:
* JS record values (string | number) become `Value`; JS numbers are
  modelled as `Int` (the orderings relevant here are integral).
* A JS object used as a string-keyed record becomes `AttrMap`, an
  association list; reading an absent key (JS `undefined`) is `none`.
* The three-valued trigger result keeps the source's encoding:
  `some true` = MATCH, `some false` = NEGATIVE_EDGE, `none` = NO_MATCH
  (JS `true` / `false` / `null`).
* `crypto.randomUUID()` is modelled as a fresh-counter supply threaded
  through `parseConfig`: each call yields a value distinct from all
  previous ones, which is the only property the code relies on.
* `setTimeout`/`clearTimeout` are modelled by the `timeouts` map of the
  engine state together with an explicit expiry event (`fireTimeout`);
  an entry in the map is exactly an armed timer whose callback will run
  on expiry.  `timeout.unref()` only detaches the timer from process
  lifetime and is not represented.
-/

/-- A JS value as used in state records: a string or a number. -/
inductive Value where
  | str (s : String)
  | num (n : Int)
deriving DecidableEq, Repr

/-- JS `ToNumber` on a string, restricted to integral literals: the empty
string converts to 0, otherwise an integer parse; a non-numeric string
gives NaN, modelled as `none` (all NaN comparisons are false). -/
def jsStrToNum (s : String) : Option Int :=
  if s == "" then some 0 else s.toInt?

/-- Numeric view of a possibly-absent value: `undefined` is NaN (`none`),
a string is coerced, a number is itself. -/
def valToNum : Option Value → Option Int
  | some (.num n) => some n
  | some (.str s) => jsStrToNum s
  | none => none

/-- JS `v < b` where `b` is a config number (NaN comparisons are false). -/
def numLt (v : Option Value) (b : Int) : Bool :=
  match valToNum v with
  | some a => a < b
  | none => false

/-- JS `v >= b` (NaN comparisons are false). -/
def numGe (v : Option Value) (b : Int) : Bool :=
  match valToNum v with
  | some a => b ≤ a
  | none => false

/-- JS `v > b` (NaN comparisons are false). -/
def numGt (v : Option Value) (b : Int) : Bool :=
  match valToNum v with
  | some a => b < a
  | none => false

/-- JS `v <= b` (NaN comparisons are false). -/
def numLe (v : Option Value) (b : Int) : Bool :=
  match valToNum v with
  | some a => a ≤ b
  | none => false

/-- A JS object holding state attributes, as an association list. -/
abbrev AttrMap := List (String × Value)

/-- `obj.hasOwnProperty(k)`. -/
def hasAttr (m : AttrMap) (k : String) : Bool :=
  m.any (fun p => p.1 == k)

/-- `obj[k]`: `none` is JS `undefined`. -/
def getAttr (m : AttrMap) (k : String) : Option Value :=
  (m.find? (fun p => p.1 == k)).map (fun p => p.2)

/-- A config field that may hold a single item or an array (the source's
`toArray` normalizes both shapes). -/
inductive OneOrMany (α : Type) where
  | one (a : α)
  | many (l : List α)
deriving DecidableEq, Repr

/-- `toArray(item)`: `Array.isArray(item) ? item : [item]`. -/
def toArray {α : Type} : OneOrMany α → List α
  | .one a => [a]
  | .many l => l

/-- `toArray` applied to an optional config field: `toArray(undefined)`
in JS yields `[undefined]`. -/
def optToArray : Option (OneOrMany Value) → List (Option Value)
  | none => [none]
  | some (.one v) => [some v]
  | some (.many l) => l.map some

/-- A raw trigger object.  All fields are optional because the config is
untyped JS data; `attrName` is the source's `attribute`, `forSec` the
source's `for` (seconds). -/
structure ConfigTrigger where
  platform : String
  entity : Option (OneOrMany String)
  action : Option (OneOrMany Value)
  state : Option (OneOrMany Value)
  state_l1 : Option (OneOrMany Value)
  state_l2 : Option (OneOrMany Value)
  attrName : Option String
  above : Option Int
  below : Option Int
  forSec : Option Nat
deriving DecidableEq, Repr

/-- `trigger.attribute || default`: JS `||` falls through on `undefined`
and on the empty string. -/
def attrOrDefault (a : Option String) (d : String) : String :=
  match a with
  | none => d
  | some s => if s == "" then d else s

/-- `trigger.attribute` for the numeric platform (no default): an absent
field is JS `undefined`, which as a property key stringifies to
"undefined". -/
def attrOrUndefined (a : Option String) : String :=
  match a with
  | none => "undefined"
  | some s => s

/-- `AutomationsExtension.checkTrigger(configTrigger, update, from, to)`.
Returns `some true` (MATCH), `some false` (NEGATIVE_EDGE) or `none`
(NO_MATCH / JS null), mirroring the source's switch; the fall-through
after the switch returns `false`. -/
def checkTrigger (t : ConfigTrigger) (update from_ to_ : AttrMap) : Option Bool :=
  if t.platform == "action" then
    if !(hasAttr update "action") then none
    else some ((optToArray t.action).contains (getAttr update "action"))
  else if t.platform == "state" then
    let a := attrOrDefault t.attrName "state"
    if !(hasAttr update a) || !(hasAttr from_ a) || !(hasAttr to_ a) then none
    else if getAttr from_ a == getAttr to_ a then none
    else some ((optToArray t.state).contains (getAttr update a))
  else if t.platform == "state_l1" then
    let a := attrOrDefault t.attrName "state_l1"
    if !(hasAttr update a) || !(hasAttr from_ a) || !(hasAttr to_ a) then none
    else if getAttr from_ a == getAttr to_ a then none
    else some ((optToArray t.state_l1).contains (getAttr update a))
  else if t.platform == "state_l2" then
    let a := attrOrDefault t.attrName "state_l2"
    if !(hasAttr update a) || !(hasAttr from_ a) || !(hasAttr to_ a) then none
    else if getAttr from_ a == getAttr to_ a then none
    else some ((optToArray t.state_l2).contains (getAttr update a))
  else if t.platform == "numeric_state" then
    let a := attrOrUndefined t.attrName
    if !(hasAttr update a) || !(hasAttr from_ a) || !(hasAttr to_ a) then none
    else if getAttr from_ a == getAttr to_ a then none
    else
      match t.above with
      | some ab =>
        if numLt (getAttr to_ a) ab then some false
        else if numGe (getAttr from_ a) ab then none
        else
          match t.below with
          | some bl =>
            if numGt (getAttr to_ a) bl then some false
            else if numLe (getAttr from_ a) bl then none
            else some true
          | none => some true
      | none =>
        match t.below with
        | some bl =>
          if numGt (getAttr to_ a) bl then some false
          else if numLe (getAttr from_ a) bl then none
          else some true
        | none => some true
  else some false

example :
    checkTrigger
      { platform := "action", entity := some (.one "b"),
        action := some (.one (.str "press")), state := none, state_l1 := none,
        state_l2 := none, attrName := none, above := none, below := none,
        forSec := none }
      [("action", .str "press")] [] [] = some true := by decide

/-- A raw condition object (`entity` and `state` are single values in the
condition shape; `attrName` is the source's `attribute`). -/
structure ConfigCondition where
  platform : String
  entity : Option String
  state : Option Value
  attrName : Option String
  above : Option Int
  below : Option Int
deriving DecidableEq, Repr

/-- A raw action object.  `service` stays a raw string (the source's enum
values are the strings "toggle", "turn_on", "turn_off", "custom" and the
config may carry anything); `data` is the custom payload. -/
structure ConfigAction where
  entity : String
  service : String
  data : Option Value
deriving DecidableEq, Repr

/-- A resolved entity as the core sees it: only its publish name is used. -/
structure Entity where
  name : String
deriving DecidableEq, Repr

/-- `AutomationsExtension.checkCondition(condition)`.  The host collaborators
`zigbee.resolveEntity` and `state.get` are passed as functions; a resolver
miss (including `resolveEntity(undefined)` for a missing entity field)
makes the condition vacuously satisfied.  The switch has no case for the
"action" platform, so any unlisted platform falls through to `true`. -/
def checkCondition (resolve : String → Option Entity) (getState : Entity → AttrMap)
    (c : ConfigCondition) : Bool :=
  match c.entity.bind resolve with
  | none => true
  | some entity =>
    if c.platform == "state" then
      let a := attrOrDefault c.attrName "state"
      if getAttr (getState entity) a != c.state then false else true
    else if c.platform == "state_l1" then
      let a := attrOrDefault c.attrName "state_l1"
      if getAttr (getState entity) a != c.state then false else true
    else if c.platform == "state_l2" then
      let a := attrOrDefault c.attrName "state_l2"
      if getAttr (getState entity) a != c.state then false else true
    else if c.platform == "numeric_state" then
      let a := attrOrUndefined c.attrName
      let current := getAttr (getState entity) a
      if (match c.above with | some ab => numLt current ab | none => false) then false
      else if (match c.below with | some bl => numGt current bl | none => false) then false
      else true
    else true

/-- An MQTT publish emitted by the action runner: either the computed
`{state: newState}` object or a custom action's verbatim `data`. -/
inductive Payload where
  | stateObj (s : Option Value)
  | customData (d : Option Value)
deriving DecidableEq, Repr

/-- The `newState` computed by the switch in `runActions`: the switch has
no case for "custom" (or anything unrecognized), leaving it undefined. -/
def newStateFor (service : String) (currentState : Option Value) : Option Value :=
  if service == "turn_on" then some (.str "ON")
  else if service == "turn_off" then some (.str "OFF")
  else if service == "toggle" then
    some (if currentState == some (.str "ON") then Value.str "OFF" else Value.str "ON")
  else none

/-- One iteration of the `runActions` loop: the publishes (topic, payload)
this action contributes.  An unresolved destination is skipped; a custom
action publishes its data verbatim; otherwise a publish is emitted only
when the computed state differs from the current one. -/
def runActionOne (resolve : String → Option Entity) (getState : Entity → AttrMap)
    (base : String) (a : ConfigAction) : List (String × Payload) :=
  match resolve a.entity with
  | none => []
  | some destination =>
    let currentState := getAttr (getState destination) "state"
    let newState := newStateFor a.service currentState
    if a.service == "custom" then
      [(base ++ "/" ++ destination.name ++ "/set", Payload.customData a.data)]
    else if currentState == newState then []
    else [(base ++ "/" ++ destination.name ++ "/set", Payload.stateObj newState)]

/-- `AutomationsExtension.runActions(actions)`, as the list of publishes. -/
def runActions (resolve : String → Option Entity) (getState : Entity → AttrMap)
    (base : String) (actions : List ConfigAction) : List (String × Payload) :=
  (actions.map (runActionOne resolve getState base)).flatten

/-- `AutomationsExtension.runActionsWithConditions(conditions, actions)`:
the loop returns at the first failing condition, otherwise runs actions. -/
def runActionsWithConditions (resolve : String → Option Entity)
    (getState : Entity → AttrMap) (base : String) :
    List ConfigCondition → List ConfigAction → List (String × Payload)
  | [], actions => runActions resolve getState base actions
  | c :: rest, actions =>
    if !(checkCondition resolve getState c) then []
    else runActionsWithConditions resolve getState base rest actions

/-- The conditions actually examined by the `runActionsWithConditions`
loop, in order: evaluation stops at (and includes) the first failing
condition. -/
def conditionsEvaluated (resolve : String → Option Entity)
    (getState : Entity → AttrMap) : List ConfigCondition → List ConfigCondition
  | [] => []
  | c :: rest =>
    if !(checkCondition resolve getState c) then [c]
    else c :: conditionsEvaluated resolve getState rest

/-- One raw entry of the `automations` configuration mapping. -/
structure ConfigAutomation where
  trigger : ConfigTrigger
  action : OneOrMany ConfigAction
  condition : Option (OneOrMany ConfigCondition)
deriving DecidableEq, Repr

/-- A parsed rule as pushed into the store: `id` comes from the fresh-id
supply (the source's `crypto.randomUUID()`). -/
structure Automation where
  id : Nat
  trigger : ConfigTrigger
  action : List ConfigAction
  condition : List ConfigCondition
deriving DecidableEq, Repr

/-- The rule store: entity id → rules watching it, insertion-ordered
(a JS object keyed by entity id). -/
abbrev Store := List (String × List Automation)

/-- `result[entityId]`, `undefined` when the bucket does not exist. -/
def lookupStore (s : Store) (eid : String) : Option (List Automation) :=
  (s.find? (fun p => p.1 == eid)).map (fun p => p.2)

/-- `if (!result[entityId]) result[entityId] = []; result[entityId].push(a)`. -/
def pushStore (s : Store) (eid : String) (a : Automation) : Store :=
  if s.any (fun p => p.1 == eid) then
    s.map (fun p => if p.1 == eid then (p.1, p.2 ++ [a]) else p)
  else s ++ [(eid, [a])]

/-- `Object.values(ConfigService)`. -/
def servicesList : List String := ["toggle", "turn_on", "turn_off", "custom"]

/-- `Object.values(ConfigPlatform)`. -/
def platformsList : List String :=
  ["action", "state", "state_l1", "state_l2", "numeric_state"]

/-- JS truthiness of `automation.trigger.entity`: `undefined` and the
empty string are falsy; any array (even empty) is truthy. -/
def entityFieldTruthy : Option (OneOrMany String) → Bool
  | none => false
  | some (.one s) => !(s == "")
  | some (.many _) => true

/-- `toArray(automation.trigger.entity)`; only reached when the field is
truthy, so the `none` arm is unreachable. -/
def entityToArray : Option (OneOrMany String) → List String
  | none => []
  | some (.one s) => [s]
  | some (.many l) => l

/-- JS truthiness of `condition.entity`. -/
def condEntityTruthy : Option String → Bool
  | none => false
  | some s => !(s == "")

/-- The body of the `reduce` callback in `parseConfig`: validates one raw
entry and, if valid, appends one rule replica per trigger entity, drawing
a fresh id (counter value) for each replica exactly where the source
calls `crypto.randomUUID()`. -/
def processEntry (acc : Store × Nat) (a : ConfigAutomation) : Store × Nat :=
  if !(platformsList.contains a.trigger.platform) then acc
  else if !(entityFieldTruthy a.trigger.entity) then acc
  else
    let actions := toArray a.action
    if actions.any (fun act => !(servicesList.contains act.service)) then acc
    else
      let conditions := match a.condition with
        | some c => toArray c
        | none => []
      if conditions.any (fun c =>
          !(condEntityTruthy c.entity) || !(platformsList.contains c.platform)) then acc
      else
        (entityToArray a.trigger.entity).foldl
          (fun st eid =>
            (pushStore st.1 eid
              { id := st.2, trigger := a.trigger,
                action := actions, condition := conditions },
             st.2 + 1))
          acc

/-- `AutomationsExtension.parseConfig(automations)` over the entry list
(`Object.values` order), returning the store and the final state of the
fresh-id supply. -/
def parseConfig (autos : List ConfigAutomation) : Store × Nat :=
  autos.foldl processEntry ([], 0)

/-- The mutable engine state: the immutable store, the pending-timer map
`this.timeouts` (an entry is an armed `setTimeout` whose callback will run
on expiry), and whether `start()`'s event-bus listener is registered. -/
structure Engine where
  automations : Store
  timeouts : Nat → Option Automation
  subscribed : Bool

/-- `AutomationsExtension.stopTimeout(automationId)`: `clearTimeout` plus
deletion from the map (a no-op when no timer is pending). -/
def stopTimeout (e : Engine) (automationId : Nat) : Engine :=
  { e with timeouts := fun i => if i == automationId then none else e.timeouts i }

/-- `AutomationsExtension.startTimeout(automation, time)`: arms a timer
whose callback will delete the map entry and run the rule's
condition-gated actions.  The duration is not represented; expiry is the
explicit event `fireTimeout`. -/
def startTimeout (e : Engine) (a : Automation) : Engine :=
  { e with timeouts := fun i => if i == a.id then some a else e.timeouts i }

/-- The `setTimeout` callback installed by `startTimeout`, as an explicit
expiry event: if a timer for this id is armed, remove it from the map and
run the captured rule's conditions and actions.  Note it runs whether or
not the engine is still subscribed to the event bus. -/
def fireTimeout (resolve : String → Option Entity) (getState : Entity → AttrMap)
    (base : String) (e : Engine) (automationId : Nat) :
    Engine × List (String × Payload) :=
  match e.timeouts automationId with
  | none => (e, [])
  | some a =>
    ({ e with timeouts := fun i => if i == automationId then none else e.timeouts i },
     runActionsWithConditions resolve getState base a.condition a.action)

/-- JS truthiness of `automation.trigger.for`: 0 and `undefined` falsy. -/
def forTruthy : Option Nat → Bool
  | none => false
  | some t => !(t == 0)

/-- `AutomationsExtension.runAutomationIfMatches(automation, update, from, to)`:
NEGATIVE_EDGE stops the rule's pending timer; NO_MATCH does nothing; MATCH
is ignored while a timer is pending, else arms a timer when the trigger
declares a truthy `for`, else runs the condition-gated actions now. -/
def runAutomationIfMatches (resolve : String → Option Entity)
    (getState : Entity → AttrMap) (base : String) (e : Engine) (a : Automation)
    (update from_ to_ : AttrMap) : Engine × List (String × Payload) :=
  match checkTrigger a.trigger update from_ to_ with
  | some false => (stopTimeout e a.id, [])
  | none => (e, [])
  | some true =>
    match e.timeouts a.id with
    | some _ => (e, [])
    | none =>
      if forTruthy a.trigger.forSec then (startTimeout e a, [])
      else (e, runActionsWithConditions resolve getState base a.condition a.action)

/-- `AutomationsExtension.findAndRun(entityId, update, from, to)`. -/
def findAndRun (resolve : String → Option Entity) (getState : Entity → AttrMap)
    (base : String) (e : Engine) (entityId : String)
    (update from_ to_ : AttrMap) : Engine × List (String × Payload) :=
  match lookupStore e.automations entityId with
  | none => (e, [])
  | some automations =>
    automations.foldl
      (fun acc a =>
        let r := runAutomationIfMatches resolve getState base acc.1 a update from_ to_
        (r.1, acc.2 ++ r.2))
      (e, [])

/-- A state-change event delivered by the event bus: the handler installed
by `start()` runs only while the listener is registered. -/
def onStateChange (resolve : String → Option Entity) (getState : Entity → AttrMap)
    (base : String) (e : Engine) (entityId : String)
    (update from_ to_ : AttrMap) : Engine × List (String × Payload) :=
  if !e.subscribed then (e, [])
  else findAndRun resolve getState base e entityId update from_ to_

/-- `AutomationsExtension.start()`: registers the event-bus listener. -/
def startEngine (e : Engine) : Engine :=
  { e with subscribed := true }

/-- `AutomationsExtension.stop()`: the body is exactly
`this.eventBus.removeListeners(this)` — it unsubscribes from the event bus
and touches nothing else; in particular `this.timeouts` and the armed
`setTimeout` callbacks are left as they are. -/
def stopEngine (e : Engine) : Engine :=
  { e with subscribed := false }

/-- The engine as built by the constructor: store from `parseConfig`,
empty timer map, listener not yet registered. -/
def initEngine (autos : List ConfigAutomation) : Engine :=
  { automations := (parseConfig autos).1, timeouts := fun _ => none,
    subscribed := false }

/-- A trigger with every optional field absent, for building instances. -/
def trigBlank : ConfigTrigger :=
  { platform := "", entity := none, action := none, state := none,
    state_l1 := none, state_l2 := none, attrName := none, above := none,
    below := none, forSec := none }

/-- A condition with every optional field absent. -/
def condBlank : ConfigCondition :=
  { platform := "", entity := none, state := none, attrName := none,
    above := none, below := none }

/-- Helper: a NEGATIVE_EDGE trigger result makes `runAutomationIfMatches`
stop the rule's pending timer and emit nothing. -/
theorem negEdge_stops_timeout (resolve : String → Option Entity)
    (getState : Entity → AttrMap) (base : String) (e : Engine) (r : Automation)
    (u f g : AttrMap) (h : checkTrigger r.trigger u f g = some false) :
    runAutomationIfMatches resolve getState base e r u f g = (stopTimeout e r.id, []) := by
  unfold runAutomationIfMatches
  rw [h]

/-- Helper: the timer map after `stopTimeout` has no entry at the stopped id. -/
theorem stopTimeout_timeouts_self (e : Engine) (i : Nat) :
    (stopTimeout e i).timeouts i = none := by
  simp [stopTimeout]

/-- The action-platform trigger used for the C3 instances. -/
def c3Trig : ConfigTrigger :=
  { trigBlank with platform := "action", action := some (.one (.str "press")) }

/-- The C3 rule with a pending timer at id 5. -/
def c3Rule : Automation :=
  { id := 5, trigger := c3Trig, action := [], condition := [] }

/-- An engine whose timer map holds a pending timer for rule id 5. -/
def c3Engine : Engine :=
  { automations := [], timeouts := fun i => if i == 5 then some c3Rule else none,
    subscribed := true }

/-- C3 counterexample: an action-platform update whose `action` value is
not in the accepted set makes `checkTrigger` return `some false`
(NEGATIVE_EDGE), not `none` (NO_MATCH), and processing that update on a
rule with a pending timer cancels the timer. -/
theorem c3_counterexample :
    checkTrigger c3Trig [("action", Value.str "other")] [] [] = some false ∧
    c3Engine.timeouts 5 = some c3Rule ∧
    (runAutomationIfMatches (fun _ => none) (fun _ => []) "base" c3Engine c3Rule
      [("action", Value.str "other")] [] []).1.timeouts 5 = none := by
  refine ⟨by decide, by decide, by decide⟩

/-- C3 (amended): for an action-platform trigger, the result is NO_MATCH
when the update lacks an `action` field, and otherwise is MATCH or
NEGATIVE_EDGE according to membership of the update's `action` value in
the accepted set; a NEGATIVE_EDGE result cancels a pending timer for the
rule and emits nothing. -/
theorem c3_action_platform_semantics (t : ConfigTrigger) (u f g : AttrMap)
    (hp : t.platform = "action") :
    (hasAttr u "action" = false → checkTrigger t u f g = none) ∧
    (hasAttr u "action" = true →
      checkTrigger t u f g = some ((optToArray t.action).contains (getAttr u "action"))) ∧
    (∀ (resolve : String → Option Entity) (getState : Entity → AttrMap)
      (base : String) (e : Engine) (r : Automation),
      checkTrigger r.trigger u f g = some false →
      (runAutomationIfMatches resolve getState base e r u f g).1.timeouts r.id = none ∧
      (runAutomationIfMatches resolve getState base e r u f g).2 = []) := by
  refine ⟨?_, ?_, ?_⟩
  · intro h
    simp [checkTrigger, hp, h]
  · intro h
    simp [checkTrigger, hp, h]
  · intro resolve getState base e r h
    rw [negEdge_stops_timeout resolve getState base e r u f g h]
    exact ⟨stopTimeout_timeouts_self e r.id, rfl⟩

/-- Witness for C3 (amended) at concrete inputs. -/
theorem c3_action_platform_semantics_witness :
    checkTrigger c3Trig [("x", Value.num 1)] [] [] = none ∧
    checkTrigger c3Trig [("action", Value.str "press")] [] [] = some true := by
  have h1 := c3_action_platform_semantics c3Trig [("x", Value.num 1)] [] [] rfl
  have h2 := c3_action_platform_semantics c3Trig [("action", Value.str "press")] [] [] rfl
  refine ⟨h1.1 (by decide), ?_⟩
  rw [h2.2.1 (by decide)]
  decide

/-- C4: for a numeric-state trigger with only `above` configured, when all
three maps carry the attribute and the from/to values differ, the result
is NEGATIVE_EDGE when `to < above`, NO_MATCH when `from >= above`
(no fresh crossing), and MATCH otherwise; symmetrically with only `below`
configured using `to > below` and `from <= below`. -/
theorem c4_numeric_trigger_semantics :
    (∀ (t : ConfigTrigger) (u f g : AttrMap) (a : String) (ab : Int),
      t.platform = "numeric_state" → attrOrUndefined t.attrName = a →
      t.above = some ab → t.below = none →
      hasAttr u a = true → hasAttr f a = true → hasAttr g a = true →
      getAttr f a ≠ getAttr g a →
      (numLt (getAttr g a) ab = true → checkTrigger t u f g = some false) ∧
      (numLt (getAttr g a) ab = false → numGe (getAttr f a) ab = true →
        checkTrigger t u f g = none) ∧
      (numLt (getAttr g a) ab = false → numGe (getAttr f a) ab = false →
        checkTrigger t u f g = some true)) ∧
    (∀ (t : ConfigTrigger) (u f g : AttrMap) (a : String) (bl : Int),
      t.platform = "numeric_state" → attrOrUndefined t.attrName = a →
      t.above = none → t.below = some bl →
      hasAttr u a = true → hasAttr f a = true → hasAttr g a = true →
      getAttr f a ≠ getAttr g a →
      (numGt (getAttr g a) bl = true → checkTrigger t u f g = some false) ∧
      (numGt (getAttr g a) bl = false → numLe (getAttr f a) bl = true →
        checkTrigger t u f g = none) ∧
      (numGt (getAttr g a) bl = false → numLe (getAttr f a) bl = false →
        checkTrigger t u f g = some true)) := by
  constructor
  · intro t u f g a ab hp ha hab hbl hu hf hg hne
    refine ⟨?_, ?_, ?_⟩
    · intro h1
      simp [checkTrigger, hp, ha, hab, hbl, hu, hf, hg, hne, h1]
    · intro h1 h2
      simp [checkTrigger, hp, ha, hab, hbl, hu, hf, hg, hne, h1, h2]
    · intro h1 h2
      simp [checkTrigger, hp, ha, hab, hbl, hu, hf, hg, hne, h1, h2]
  · intro t u f g a bl hp ha hab hbl hu hf hg hne
    refine ⟨?_, ?_, ?_⟩
    · intro h1
      simp [checkTrigger, hp, ha, hab, hbl, hu, hf, hg, hne, h1]
    · intro h1 h2
      simp [checkTrigger, hp, ha, hab, hbl, hu, hf, hg, hne, h1, h2]
    · intro h1 h2
      simp [checkTrigger, hp, ha, hab, hbl, hu, hf, hg, hne, h1, h2]

/-- The numeric trigger (attribute "temperature", above 30) used for the
C4 witness, matching scenario C of the spec. -/
def c4Trig : ConfigTrigger :=
  { trigBlank with
    platform := "numeric_state",
    attrName := some "temperature", above := some 30 }

/-- The below-only numeric trigger used for the C4 witness. -/
def c4TrigBelow : ConfigTrigger :=
  { trigBlank with
    platform := "numeric_state",
    attrName := some "temperature", below := some 10 }

/-- Witness for C4 at concrete inputs: 25→35 crosses above 30 and MATCHes,
35→32 stays above and is NO_MATCH, 35→25 leaves the region and is
NEGATIVE_EDGE; 15→5 crosses below 10 and MATCHes. -/
theorem c4_numeric_trigger_semantics_witness :
    checkTrigger c4Trig [("temperature", Value.num 35)]
      [("temperature", Value.num 25)] [("temperature", Value.num 35)] = some true ∧
    checkTrigger c4Trig [("temperature", Value.num 32)]
      [("temperature", Value.num 35)] [("temperature", Value.num 32)] = none ∧
    checkTrigger c4Trig [("temperature", Value.num 25)]
      [("temperature", Value.num 35)] [("temperature", Value.num 25)] = some false ∧
    checkTrigger c4TrigBelow [("temperature", Value.num 5)]
      [("temperature", Value.num 15)] [("temperature", Value.num 5)] = some true := by
  have h := c4_numeric_trigger_semantics
  refine ⟨?_, ?_, ?_, ?_⟩
  · exact (h.1 c4Trig [("temperature", Value.num 35)] [("temperature", Value.num 25)]
      [("temperature", Value.num 35)] "temperature" 30 (by rfl) (by rfl) (by rfl) (by rfl)
      (by decide) (by decide) (by decide) (by decide)).2.2 (by decide) (by decide)
  · exact (h.1 c4Trig [("temperature", Value.num 32)] [("temperature", Value.num 35)]
      [("temperature", Value.num 32)] "temperature" 30 (by rfl) (by rfl) (by rfl) (by rfl)
      (by decide) (by decide) (by decide) (by decide)).2.1 (by decide) (by decide)
  · exact (h.1 c4Trig [("temperature", Value.num 25)] [("temperature", Value.num 35)]
      [("temperature", Value.num 25)] "temperature" 30 (by rfl) (by rfl) (by rfl) (by rfl)
      (by decide) (by decide) (by decide) (by decide)).1 (by decide)
  · exact (h.2 c4TrigBelow [("temperature", Value.num 5)] [("temperature", Value.num 15)]
      [("temperature", Value.num 5)] "temperature" 10 (by rfl) (by rfl) (by rfl) (by rfl)
      (by decide) (by decide) (by decide) (by decide)).2.2 (by decide) (by decide)

/-- C5: for every state-like trigger (platforms state, state_l1, state_l2),
when update, from and to all carry the trigger's attribute: equal from/to
values give NO_MATCH regardless of the update value, and on a real
transition the result is MATCH exactly when the update's value (not the
to value) is in the accepted set. -/
theorem c5_state_trigger_semantics :
    (∀ (t : ConfigTrigger) (u f g : AttrMap) (a : String),
      t.platform = "state" → attrOrDefault t.attrName "state" = a →
      hasAttr u a = true → hasAttr f a = true → hasAttr g a = true →
      (getAttr f a = getAttr g a → checkTrigger t u f g = none) ∧
      (getAttr f a ≠ getAttr g a →
        checkTrigger t u f g = some ((optToArray t.state).contains (getAttr u a)))) ∧
    (∀ (t : ConfigTrigger) (u f g : AttrMap) (a : String),
      t.platform = "state_l1" → attrOrDefault t.attrName "state_l1" = a →
      hasAttr u a = true → hasAttr f a = true → hasAttr g a = true →
      (getAttr f a = getAttr g a → checkTrigger t u f g = none) ∧
      (getAttr f a ≠ getAttr g a →
        checkTrigger t u f g = some ((optToArray t.state_l1).contains (getAttr u a)))) ∧
    (∀ (t : ConfigTrigger) (u f g : AttrMap) (a : String),
      t.platform = "state_l2" → attrOrDefault t.attrName "state_l2" = a →
      hasAttr u a = true → hasAttr f a = true → hasAttr g a = true →
      (getAttr f a = getAttr g a → checkTrigger t u f g = none) ∧
      (getAttr f a ≠ getAttr g a →
        checkTrigger t u f g = some ((optToArray t.state_l2).contains (getAttr u a)))) := by
  refine ⟨?_, ?_, ?_⟩ <;>
    (intro t u f g a hp ha hu hf hg
     constructor
     · intro heq
       simp [checkTrigger, hp, ha, hu, hf, hg, heq]
     · intro hne
       simp [checkTrigger, hp, ha, hu, hf, hg, hne])

/-- The state trigger accepting ["ON"] on the default attribute, used for
the C5 witness; the update value "ON" diverges from the to value "weird"
and is still authoritative. -/
def c5Trig : ConfigTrigger :=
  { trigBlank with
    platform := "state",
    state := some (.one (.str "ON")) }

/-- Witness for C5 at concrete inputs: no transition gives NO_MATCH even
with an accepted update value; a transition MATCHes on the update value
even when it differs from the to value. -/
theorem c5_state_trigger_semantics_witness :
    checkTrigger c5Trig [("state", Value.str "ON")]
      [("state", Value.str "ON")] [("state", Value.str "ON")] = none ∧
    checkTrigger c5Trig [("state", Value.str "ON")]
      [("state", Value.str "OFF")] [("state", Value.str "weird")] = some true := by
  have h := c5_state_trigger_semantics
  constructor
  · exact (h.1 c5Trig [("state", Value.str "ON")] [("state", Value.str "ON")]
      [("state", Value.str "ON")] "state" (by rfl) (by rfl)
      (by decide) (by decide) (by decide)).1 (by decide)
  · rw [(h.1 c5Trig [("state", Value.str "ON")] [("state", Value.str "OFF")]
      [("state", Value.str "weird")] "state" (by rfl) (by rfl)
      (by decide) (by decide) (by decide)).2 (by decide)]
    decide

/-- C10: for a state-like trigger, a genuine transition whose update value
is not in the accepted set yields NEGATIVE_EDGE (`some false`), not
NO_MATCH, and a NEGATIVE_EDGE result removes the rule's pending timer. -/
theorem c10_state_negative_edge_cancels :
    (∀ (t : ConfigTrigger) (u f g : AttrMap) (a : String),
      t.platform = "state" → attrOrDefault t.attrName "state" = a →
      hasAttr u a = true → hasAttr f a = true → hasAttr g a = true →
      getAttr f a ≠ getAttr g a →
      (optToArray t.state).contains (getAttr u a) = false →
      checkTrigger t u f g = some false) ∧
    (∀ (t : ConfigTrigger) (u f g : AttrMap) (a : String),
      t.platform = "state_l1" → attrOrDefault t.attrName "state_l1" = a →
      hasAttr u a = true → hasAttr f a = true → hasAttr g a = true →
      getAttr f a ≠ getAttr g a →
      (optToArray t.state_l1).contains (getAttr u a) = false →
      checkTrigger t u f g = some false) ∧
    (∀ (t : ConfigTrigger) (u f g : AttrMap) (a : String),
      t.platform = "state_l2" → attrOrDefault t.attrName "state_l2" = a →
      hasAttr u a = true → hasAttr f a = true → hasAttr g a = true →
      getAttr f a ≠ getAttr g a →
      (optToArray t.state_l2).contains (getAttr u a) = false →
      checkTrigger t u f g = some false) ∧
    (∀ (resolve : String → Option Entity) (getState : Entity → AttrMap)
      (base : String) (e : Engine) (r : Automation) (u f g : AttrMap),
      checkTrigger r.trigger u f g = some false →
      (runAutomationIfMatches resolve getState base e r u f g).1.timeouts r.id = none) := by
  refine ⟨?_, ?_, ?_, ?_⟩
  · intro t u f g a hp ha hu hf hg hne hmem
    simp [checkTrigger, hp, ha, hu, hf, hg, hne]
    simpa using hmem
  · intro t u f g a hp ha hu hf hg hne hmem
    simp [checkTrigger, hp, ha, hu, hf, hg, hne]
    simpa using hmem
  · intro t u f g a hp ha hu hf hg hne hmem
    simp [checkTrigger, hp, ha, hu, hf, hg, hne]
    simpa using hmem
  · intro resolve getState base e r u f g h
    rw [negEdge_stops_timeout resolve getState base e r u f g h]
    exact stopTimeout_timeouts_self e r.id

/-- The state_l1 trigger used for the C10 witness. -/
def c10Trig : ConfigTrigger :=
  { trigBlank with
    platform := "state_l1",
    state_l1 := some (.one (.str "ON")) }

/-- The C10 rule with id 7 and a pending timer. -/
def c10Rule : Automation :=
  { id := 7, trigger := c10Trig, action := [], condition := [] }

/-- An engine with a pending timer for rule id 7. -/
def c10Engine : Engine :=
  { automations := [], timeouts := fun i => if i == 7 then some c10Rule else none,
    subscribed := true }

/-- Witness for C10 at concrete inputs: a transition OFF→OFF2 with the
update carrying the non-accepted value "OFF" is NEGATIVE_EDGE and clears
the pending timer for the rule. -/
theorem c10_state_negative_edge_cancels_witness :
    checkTrigger c10Trig [("state_l1", Value.str "OFF")]
      [("state_l1", Value.str "ON")] [("state_l1", Value.str "OFF")] = some false ∧
    (runAutomationIfMatches (fun _ => none) (fun _ => []) "base" c10Engine c10Rule
      [("state_l1", Value.str "OFF")] [("state_l1", Value.str "ON")]
      [("state_l1", Value.str "OFF")]).1.timeouts 7 = none := by
  have h := c10_state_negative_edge_cancels
  have h1 : checkTrigger c10Trig [("state_l1", Value.str "OFF")]
      [("state_l1", Value.str "ON")] [("state_l1", Value.str "OFF")] = some false :=
    h.2.1 c10Trig [("state_l1", Value.str "OFF")] [("state_l1", Value.str "ON")]
      [("state_l1", Value.str "OFF")] "state_l1" (by rfl) (by rfl)
      (by decide) (by decide) (by decide) (by decide) (by decide)
  exact ⟨h1, h.2.2.2 (fun _ => none) (fun _ => []) "base" c10Engine c10Rule
    [("state_l1", Value.str "OFF")] [("state_l1", Value.str "ON")]
    [("state_l1", Value.str "OFF")] h1⟩

/-- C6: pending-timer map invariants. (a) a MATCH for a rule whose id
already has a pending timer leaves the engine (and its timer map) exactly
as it was and emits nothing; (b) a NEGATIVE_EDGE result removes the
pending timer for the rule's id and emits nothing; (c) both firing and
stopping a timer leave no entry at that id, so each id has at most one
outstanding timer (the map holds at most one entry per id by
construction). -/
theorem c6_pending_timer_invariants :
    ∀ (resolve : String → Option Entity) (getState : Entity → AttrMap)
      (base : String) (e : Engine) (r p : Automation) (u f g : AttrMap) (i : Nat),
      (checkTrigger r.trigger u f g = some true → e.timeouts r.id = some p →
        runAutomationIfMatches resolve getState base e r u f g = (e, [])) ∧
      (checkTrigger r.trigger u f g = some false →
        (runAutomationIfMatches resolve getState base e r u f g).1.timeouts r.id = none ∧
        (runAutomationIfMatches resolve getState base e r u f g).2 = []) ∧
      ((fireTimeout resolve getState base e i).1.timeouts i = none) ∧
      ((stopTimeout e i).timeouts i = none) := by
  intro resolve getState base e r p u f g i
  refine ⟨?_, ?_, ?_, ?_⟩
  · intro ht hpend
    unfold runAutomationIfMatches
    rw [ht, hpend]
  · intro ht
    rw [negEdge_stops_timeout resolve getState base e r u f g ht]
    exact ⟨stopTimeout_timeouts_self e r.id, rfl⟩
  · unfold fireTimeout
    cases h : e.timeouts i with
    | none => simpa using h
    | some a => simp
  · exact stopTimeout_timeouts_self e i

/-- The action trigger with a 10 second `for`, used for the C6 witness. -/
def c6Trig : ConfigTrigger :=
  { trigBlank with
    platform := "action",
    action := some (.one (.str "press")), forSec := some 10 }

/-- The C6 rule with id 3. -/
def c6Rule : Automation :=
  { id := 3, trigger := c6Trig, action := [], condition := [] }

/-- An engine with a pending timer for rule id 3. -/
def c6Engine : Engine :=
  { automations := [], timeouts := fun i => if i == 3 then some c6Rule else none,
    subscribed := true }

/-- Witness for C6 at concrete inputs: a second MATCH while a timer is
pending is a no-op; a NEGATIVE_EDGE clears the timer; firing and stopping
clear the entry. -/
theorem c6_pending_timer_invariants_witness :
    runAutomationIfMatches (fun _ => none) (fun _ => []) "base" c6Engine c6Rule
      [("action", Value.str "press")] [] [] = (c6Engine, []) ∧
    (runAutomationIfMatches (fun _ => none) (fun _ => []) "base" c6Engine c6Rule
      [("action", Value.str "nope")] [] []).1.timeouts 3 = none ∧
    (fireTimeout (fun _ => none) (fun _ => []) "base" c6Engine 3).1.timeouts 3 = none ∧
    (stopTimeout c6Engine 3).timeouts 3 = none := by
  have h := c6_pending_timer_invariants (fun _ => none) (fun _ => []) "base"
    c6Engine c6Rule c6Rule [("action", Value.str "press")] [] [] 3
  have h2 := c6_pending_timer_invariants (fun _ => none) (fun _ => []) "base"
    c6Engine c6Rule c6Rule [("action", Value.str "nope")] [] [] 3
  exact ⟨h.1 (by decide) (by decide), (h2.2.1 (by decide)).1, h.2.2.1, h.2.2.2⟩

/-- C7: for a non-custom action whose destination resolves, if the
computed new state equals the destination's current `state` attribute, the
action contributes no publish; in particular `turn_on` on an entity whose
state is already "ON" produces zero publishes. -/
theorem c7_idempotent_actions :
    ∀ (resolve : String → Option Entity) (getState : Entity → AttrMap)
      (base : String) (a : ConfigAction) (d : Entity),
      (a.service ≠ "custom" → resolve a.entity = some d →
        getAttr (getState d) "state" = newStateFor a.service (getAttr (getState d) "state") →
        runActionOne resolve getState base a = []) ∧
      (a.service = "turn_on" → resolve a.entity = some d →
        getAttr (getState d) "state" = some (Value.str "ON") →
        runActions resolve getState base [a] = []) := by
  intro resolve getState base a d
  constructor
  · intro hsvc hres heq
    unfold runActionOne
    rw [hres]
    have hc : (a.service == "custom") = false := by
      simpa using hsvc
    simp only [hc, Bool.false_eq_true, if_false]
    rw [if_pos (by simpa using heq)]
  · intro hsvc hres heq
    have hne : a.service ≠ "custom" := by
      rw [hsvc]
      decide
    have heq2 : getAttr (getState d) "state"
        = newStateFor a.service (getAttr (getState d) "state") := by
      rw [heq, hsvc]
      decide
    unfold runActions
    have h1 : runActionOne resolve getState base a = [] := by
      unfold runActionOne
      rw [hres]
      have hc : (a.service == "custom") = false := by
        simpa using hne
      simp only [hc, Bool.false_eq_true, if_false]
      rw [if_pos (by simpa using heq2)]
    simp [h1]

/-- The destination, resolver, state lookup and action used for the C7
witness: the lamp is already ON. -/
def c7Lamp : Entity := { name := "lamp" }

/-- Resolver for the C7 witness. -/
def c7Resolve : String → Option Entity :=
  fun s => if s == "lamp" then some c7Lamp else none

/-- State lookup for the C7 witness: every entity is ON. -/
def c7GetState : Entity → AttrMap :=
  fun _ => [("state", Value.str "ON")]

/-- The turn_on action targeting the lamp. -/
def c7Action : ConfigAction :=
  { entity := "lamp", service := "turn_on", data := none }

/-- Witness for C7 at concrete inputs: turn_on on an entity already ON
emits no publish. -/
theorem c7_idempotent_actions_witness :
    runActionOne c7Resolve c7GetState "z2m" c7Action = [] ∧
    runActions c7Resolve c7GetState "z2m" [c7Action] = [] := by
  have h := c7_idempotent_actions c7Resolve c7GetState "z2m" c7Action c7Lamp
  exact ⟨h.1 (by decide) (by decide) (by decide),
    h.2 (by rfl) (by decide) (by decide)⟩

/-- Helper: the condition loop is equivalent to a conjunctive guard over
the whole list. -/
theorem runActionsWithConditions_all (resolve : String → Option Entity)
    (getState : Entity → AttrMap) (base : String) :
    ∀ (conds : List ConfigCondition) (acts : List ConfigAction),
      runActionsWithConditions resolve getState base conds acts =
        if conds.all (checkCondition resolve getState) then
          runActions resolve getState base acts
        else [] := by
  intro conds acts
  induction conds with
  | nil => simp [runActionsWithConditions]
  | cons c rest ih =>
    by_cases h : checkCondition resolve getState c
    · simp [runActionsWithConditions, h, ih]
    · simp only [Bool.not_eq_true] at h
      simp [runActionsWithConditions, h]

/-- C8: condition evaluation fails open (an unresolved entity satisfies the
condition), the condition list is conjunctive (the empty list trivially
satisfied), and evaluation short-circuits: the loop examines exactly the
prefix up to the first failing condition and runs no actions. -/
theorem c8_conditions_fail_open_conjunctive :
    ∀ (resolve : String → Option Entity) (getState : Entity → AttrMap)
      (base : String) (c c0 : ConfigCondition)
      (conds pre post : List ConfigCondition) (acts : List ConfigAction),
      (c.entity.bind resolve = none → checkCondition resolve getState c = true) ∧
      (runActionsWithConditions resolve getState base conds acts =
        if conds.all (checkCondition resolve getState) then
          runActions resolve getState base acts
        else []) ∧
      (runActionsWithConditions resolve getState base [] acts =
        runActions resolve getState base acts) ∧
      ((∀ x ∈ pre, checkCondition resolve getState x = true) →
        checkCondition resolve getState c0 = false →
        conditionsEvaluated resolve getState (pre ++ c0 :: post) = pre ++ [c0] ∧
        runActionsWithConditions resolve getState base (pre ++ c0 :: post) acts = []) := by
  intro resolve getState base c c0 conds pre post acts
  refine ⟨?_, runActionsWithConditions_all resolve getState base conds acts, rfl, ?_⟩
  · intro h
    unfold checkCondition
    rw [h]
  · intro hpre hc0
    induction pre with
    | nil =>
      constructor
      · simp [conditionsEvaluated, hc0]
      · simp [runActionsWithConditions, hc0]
    | cons x rest ih =>
      have hx : checkCondition resolve getState x = true := hpre x (by simp)
      have hrest : ∀ y ∈ rest, checkCondition resolve getState y = true :=
        fun y hy => hpre y (by simp [hy])
      have ihr := ih hrest
      constructor
      · simp [conditionsEvaluated, hx, ihr.1]
      · simp [runActionsWithConditions, hx, ihr.2]

/-- Conditions for the C8 witness: one satisfiable condition (unresolved
entity, fail-open), one failing numeric condition, one trailing condition. -/
def c8CondOpen : ConfigCondition :=
  { condBlank with platform := "state", entity := some "ghost" }

/-- A numeric condition that fails when the temperature is 5. -/
def c8CondFail : ConfigCondition :=
  { condBlank with
    platform := "numeric_state",
    entity := some "sensor", attrName := some "temperature", above := some 10 }

/-- A trailing condition that the loop must never reach. -/
def c8CondTail : ConfigCondition :=
  { condBlank with platform := "state", entity := some "sensor" }

/-- Resolver for the C8 witness: only "sensor" resolves. -/
def c8Resolve : String → Option Entity :=
  fun s => if s == "sensor" then some { name := "sensor" } else none

/-- State for the C8 witness: temperature 5 everywhere. -/
def c8GetState : Entity → AttrMap :=
  fun _ => [("temperature", Value.num 5)]

/-- Witness for C8 at concrete inputs: the unresolved condition passes,
the loop stops at the failing numeric condition without examining the
tail, and no actions run. -/
theorem c8_conditions_fail_open_conjunctive_witness :
    checkCondition c8Resolve c8GetState c8CondOpen = true ∧
    conditionsEvaluated c8Resolve c8GetState [c8CondOpen, c8CondFail, c8CondTail]
      = [c8CondOpen, c8CondFail] ∧
    runActionsWithConditions c8Resolve c8GetState "z2m"
      [c8CondOpen, c8CondFail, c8CondTail]
      [{ entity := "sensor", service := "turn_on", data := none }] = [] := by
  have h := c8_conditions_fail_open_conjunctive c8Resolve c8GetState "z2m"
    c8CondOpen c8CondFail [] [c8CondOpen] [c8CondTail]
    [{ entity := "sensor", service := "turn_on", data := none }]
  have hrun := h.2.2.2 (by intro x hx; fin_cases hx; decide) (by decide)
  exact ⟨h.1 (by decide), hrun.1, hrun.2⟩

/-- Helper: an entry containing an action with an unrecognized service
name leaves the reduce accumulator untouched. -/
theorem processEntry_bad_service (acc : Store × Nat) (a : ConfigAutomation)
    (act : ConfigAction) (hmem : act ∈ toArray a.action)
    (hbad : servicesList.contains act.service = false) :
    processEntry acc a = acc := by
  have hany : (toArray a.action).any
      (fun act => !(servicesList.contains act.service)) = true := by
    rw [List.any_eq_true]
    exact ⟨act, hmem, by rw [hbad]; rfl⟩
  unfold processEntry
  by_cases h1 : platformsList.contains a.trigger.platform
  · by_cases h2 : entityFieldTruthy a.trigger.entity
    · simp only [h1, h2, hany]
      simp
    · simp only [Bool.not_eq_true] at h2
      simp [h2]
  · simp only [Bool.not_eq_true] at h1
    simp [h1]
    exact fun hp => absurd hp (by simpa using h1)

/-- C9: a configuration entry containing any action with an unrecognized
service name contributes zero rules — the whole entry is dropped and the
result is exactly the store built from the remaining entries, so every
sibling entry still loads; `parseConfig` is a total function, so no entry
makes it throw. -/
theorem c9_unknown_service_drops_entry :
    ∀ (xs ys : List ConfigAutomation) (a : ConfigAutomation)
      (act : ConfigAction) (acc : Store × Nat),
      act ∈ toArray a.action → servicesList.contains act.service = false →
      processEntry acc a = acc ∧
      parseConfig (xs ++ a :: ys) = parseConfig (xs ++ ys) := by
  intro xs ys a act acc hmem hbad
  refine ⟨processEntry_bad_service acc a act hmem hbad, ?_⟩
  unfold parseConfig
  rw [List.foldl_append, List.foldl_append, List.foldl_cons,
    processEntry_bad_service _ a act hmem hbad]

/-- The invalid entry for the C9 witness: its second action names the
unknown service "blink". -/
def c9BadEntry : ConfigAutomation :=
  { trigger :=
      { trigBlank with
        platform := "action",
        entity := some (.one "btn"), action := some (.one (.str "press")) },
    action := .many
      [{ entity := "lamp", service := "turn_on", data := none },
       { entity := "lamp", service := "blink", data := none }],
    condition := none }

/-- A valid sibling entry for the C9 witness. -/
def c9GoodEntry : ConfigAutomation :=
  { trigger :=
      { trigBlank with
        platform := "action",
        entity := some (.one "btn2"), action := some (.one (.str "press")) },
    action := .one { entity := "lamp", service := "turn_off", data := none },
    condition := none }

/-- Witness for C9 at concrete inputs: the invalid entry contributes
nothing and the sibling entry loads exactly as if the invalid entry were
absent. -/
theorem c9_unknown_service_drops_entry_witness :
    processEntry ([], 0) c9BadEntry = ([], 0) ∧
    parseConfig [c9GoodEntry, c9BadEntry] = parseConfig [c9GoodEntry] ∧
    (lookupStore (parseConfig [c9GoodEntry, c9BadEntry]).1 "btn").isNone = true ∧
    ((lookupStore (parseConfig [c9GoodEntry, c9BadEntry]).1 "btn2").getD []).length = 1 := by
  have h := c9_unknown_service_drops_entry [c9GoodEntry] [] c9BadEntry
    { entity := "lamp", service := "blink", data := none } ([], 0)
    (by decide) (by decide)
  exact ⟨h.1, h.2, by decide, by decide⟩

/-- The two-entity entry for the C2 counterexample. -/
def c2Entry : ConfigAutomation :=
  { trigger :=
      { trigBlank with
        platform := "action",
        entity := some (.many ["e1", "e2"]),
        action := some (.one (.str "press")) },
    action := .one { entity := "lamp", service := "turn_on", data := none },
    condition := none }

/-- C2 counterexample: a single raw entry whose trigger names the two
entities "e1" and "e2" produces one rule replica per entity, and the two
replicas carry the two distinct identifiers 0 and 1 drawn from the fresh
supply (the source calls `crypto.randomUUID()` once per entity, inside the
entity loop), not one shared identifier. -/
theorem c2_counterexample :
    ((lookupStore (parseConfig [c2Entry]).1 "e1").getD []).map (fun r => r.id) = [0] ∧
    ((lookupStore (parseConfig [c2Entry]).1 "e2").getD []).map (fun r => r.id) = [1] ∧
    (0 : Nat) ≠ 1 := by
  refine ⟨by decide, by decide, by decide⟩

/-- All rule identifiers in a store, bucket by bucket. -/
def storeIds : Store → List Nat
  | [] => []
  | p :: rest => p.2.map (fun a => a.id) ++ storeIds rest

/-- `storeIds` distributes over append. -/
theorem storeIds_append (x y : Store) :
    storeIds (x ++ y) = storeIds x ++ storeIds y := by
  induction x with
  | nil => rfl
  | cons p rest ih => simp [storeIds, ih]

/-- The parse-time invariant: bucket keys are unique, identifiers are
pairwise distinct, and every identifier is below the supply counter. -/
def storeInv (st : Store × Nat) : Prop :=
  (st.1.map (fun p => p.1)).Nodup ∧
  (storeIds st.1).Pairwise (fun i j => i ≠ j) ∧
  ∀ i ∈ storeIds st.1, i < st.2


/-- Appending the new rule to the unique bucket whose key matches: the ids
are those of the old store plus the new id, up to permutation. -/
theorem storeIds_mapUpd (eid : String) (a : Automation) :
    ∀ (s : Store), (s.map (fun p => p.1)).Nodup →
      s.any (fun p => p.1 == eid) = true →
      List.Perm
        (storeIds (s.map (fun p => if p.1 == eid then (p.1, p.2 ++ [a]) else p)))
        (storeIds s ++ [a.id]) := by
  intro s
  induction s with
  | nil => intro _ h; simp at h
  | cons p rest ih =>
    intro hnd hany
    have hnd' : (rest.map (fun p => p.1)).Nodup := by
      rw [List.map_cons, List.nodup_cons] at hnd
      exact hnd.2
    have hkeyout : p.1 ∉ rest.map (fun p => p.1) := by
      rw [List.map_cons, List.nodup_cons] at hnd
      exact hnd.1
    by_cases hp : (p.1 == eid) = true
    · have hkey : p.1 = eid := by simpa using hp
      have hrest : ∀ q ∈ rest, (if q.1 == eid then (q.1, q.2 ++ [a]) else q) = q := by
        intro q hq
        have hqne : (q.1 == eid) = false := by
          rw [← hkey]
          by_contra hcon
          rw [Bool.not_eq_false] at hcon
          exact hkeyout (List.mem_map.mpr ⟨q, hq, by simpa using hcon.symm⟩)
        rw [hqne]
        simp
      have hmap : rest.map (fun q => if q.1 == eid then (q.1, q.2 ++ [a]) else q) = rest := by
        rw [List.map_congr_left hrest]
        simp
      rw [List.map_cons, if_pos hp, hmap]
      simp only [storeIds, List.map_append, List.map_cons, List.map_nil]
      rw [List.append_assoc, List.append_assoc]
      exact List.Perm.append_left _ List.perm_append_comm
    · have hany' : rest.any (fun p => p.1 == eid) = true := by
        rcases List.any_eq_true.mp hany with ⟨q, hq, hqe⟩
        rcases List.mem_cons.mp hq with h | h
        · rw [h] at hqe
          exact absurd hqe hp
        · exact List.any_eq_true.mpr ⟨q, h, hqe⟩
      rw [List.map_cons, if_neg hp]
      simp only [storeIds]
      rw [List.append_assoc]
      exact List.Perm.append_left _ (ih hnd' hany')

/-- Pushing into a store with unique keys appends exactly one id, up to
permutation. -/
theorem storeIds_pushStore (s : Store) (eid : String) (a : Automation)
    (hnd : (s.map (fun p => p.1)).Nodup) :
    List.Perm (storeIds (pushStore s eid a)) (storeIds s ++ [a.id]) := by
  unfold pushStore
  by_cases hany : s.any (fun p => p.1 == eid) = true
  · rw [if_pos hany]
    exact storeIds_mapUpd eid a s hnd hany
  · rw [if_neg hany]
    rw [storeIds_append]
    simp [storeIds]

/-- `pushStore` keeps bucket keys unique. -/
theorem pushStore_keys_nodup (s : Store) (eid : String) (a : Automation)
    (hnd : (s.map (fun p => p.1)).Nodup) :
    ((pushStore s eid a).map (fun p => p.1)).Nodup := by
  unfold pushStore
  by_cases hany : s.any (fun p => p.1 == eid) = true
  · rw [if_pos hany]
    have hkeys : (s.map (fun p => if p.1 == eid then (p.1, p.2 ++ [a]) else p)).map
        (fun p => p.1) = s.map (fun p => p.1) := by
      rw [List.map_map]
      apply List.map_congr_left
      intro q _
      by_cases h : q.1 = eid <;> simp [h]
    rw [hkeys]
    exact hnd
  · rw [if_neg hany]
    have hout : eid ∉ s.map (fun p => p.1) := by
      intro hin
      rcases List.mem_map.mp hin with ⟨q, hq, hqe⟩
      exact hany (List.any_eq_true.mpr ⟨q, hq, by simpa using hqe⟩)
    rw [List.map_append]
    simp only [List.map_cons, List.map_nil]
    rw [List.nodup_append]
    exact ⟨hnd, List.nodup_singleton eid, by
      intro x hx
      simp only [List.mem_singleton]
      intro hxe
      rw [hxe] at hx
      exact hout hx⟩

/-- One step of the entity loop preserves the parse-time invariant and
increments the supply. -/
theorem push_step_inv (st : Store × Nat) (eid : String) (tr : ConfigTrigger)
    (acts : List ConfigAction) (conds : List ConfigCondition)
    (h : storeInv st) :
    storeInv (pushStore st.1 eid
      { id := st.2, trigger := tr, action := acts, condition := conds }, st.2 + 1) := by
  obtain ⟨hkeys, hpw, hlt⟩ := h
  have hperm := storeIds_pushStore st.1 eid
    { id := st.2, trigger := tr, action := acts, condition := conds } hkeys
  refine ⟨pushStore_keys_nodup st.1 eid _ hkeys, ?_, ?_⟩
  · rw [(hperm.pairwise_iff (fun hne => Ne.symm hne))]
    rw [List.pairwise_append]
    refine ⟨hpw, List.pairwise_singleton _ _, ?_⟩
    intro i hi j hj
    rw [List.mem_singleton] at hj
    rw [hj]
    exact Nat.ne_of_lt (hlt i hi)
  · intro i hi
    rcases List.mem_append.mp (hperm.mem_iff.mp hi) with h | h
    · exact Nat.lt_succ_of_lt (hlt i h)
    · rw [List.mem_singleton] at h
      rw [h]
      exact Nat.lt_succ_self _

/-- The entity loop of `processEntry` preserves the parse-time invariant. -/
theorem foldl_push_inv (tr : ConfigTrigger) (acts : List ConfigAction)
    (conds : List ConfigCondition) :
    ∀ (ents : List String) (acc : Store × Nat), storeInv acc →
      storeInv (ents.foldl
        (fun st eid =>
          (pushStore st.1 eid
            { id := st.2, trigger := tr, action := acts, condition := conds },
           st.2 + 1)) acc) := by
  intro ents
  induction ents with
  | nil => intro acc h; exact h
  | cons e rest ih =>
    intro acc h
    exact ih _ (push_step_inv acc e tr acts conds h)

/-- `processEntry` preserves the parse-time invariant. -/
theorem processEntry_inv (acc : Store × Nat) (a : ConfigAutomation)
    (h : storeInv acc) : storeInv (processEntry acc a) := by
  unfold processEntry
  repeat' split
  all_goals try dsimp only
  all_goals repeat' split
  all_goals
    first
      | exact h
      | exact foldl_push_inv a.trigger _ _ _ acc h

/-- The store built by `parseConfig` satisfies the parse-time invariant. -/
theorem parseConfig_inv (autos : List ConfigAutomation) :
    storeInv (parseConfig autos) := by
  unfold parseConfig
  have hgen : ∀ (l : List ConfigAutomation) (acc : Store × Nat), storeInv acc →
      storeInv (l.foldl processEntry acc) := by
    intro l
    induction l with
    | nil => intro acc h; exact h
    | cons x rest ih =>
      intro acc h
      exact ih _ (processEntry_inv acc x h)
  refine hgen autos ([], 0) ⟨by simp, ?_, ?_⟩
  · simp [storeIds]
  · intro i hi
    simp [storeIds] at hi

/-- C2 (amended): `parseConfig` draws one fresh identifier per
(raw entry, trigger entity) replica — every rule pushed into the store,
including the several replicas of one multi-entity entry, carries an
identifier distinct from that of every other rule, so each replica has
its own pending-timer slot. -/
theorem c2_fresh_id_per_replica (autos : List ConfigAutomation) :
    (storeIds (parseConfig autos).1).Pairwise (fun i j => i ≠ j) :=
  (parseConfig_inv autos).2.1

/-- The C1 trigger: an action trigger with a 10 second `for` delay. -/
def c1Trig : ConfigTrigger :=
  { trigBlank with
    platform := "action",
    entity := some (.one "btn"),
    action := some (.one (.str "press")), forSec := some 10 }

/-- The C1 configuration entry: on "press", turn the lamp on after 10 s. -/
def c1Entry : ConfigAutomation :=
  { trigger := c1Trig,
    action := .one { entity := "lamp", service := "turn_on", data := none },
    condition := none }

/-- The rule `parseConfig` builds from `c1Entry` (id 0). -/
def c1Rule : Automation :=
  { id := 0, trigger := c1Trig,
    action := [{ entity := "lamp", service := "turn_on", data := none }],
    condition := [] }

/-- Resolver for the C1 scenario: only the lamp resolves. -/
def c1Resolve : String → Option Entity :=
  fun s => if s == "lamp" then some { name := "lamp" } else none

/-- State for the C1 scenario: the lamp is OFF. -/
def c1GetState : Entity → AttrMap :=
  fun _ => [("state", Value.str "OFF")]

/-- The engine after start() and a MATCHing "press" event: the 10 s timer
for rule id 0 is armed. -/
def c1EngineAfterMatch : Engine :=
  (onStateChange c1Resolve c1GetState "z2m"
    (startEngine (initEngine [c1Entry])) "btn"
    [("action", Value.str "press")] [] []).1

/-- C1: the claim that stop() cancels every outstanding pending timer is
violated by the code.  `stop()`'s whole body is
`this.eventBus.removeListeners(this)`: it never touches `this.timeouts`
and never calls `clearTimeout`, so a timer armed before stop() stays
armed (first two conjuncts) and its callback still runs the rule's
actions after stop() — here publishing `{state: ON}` to the lamp — even
though the spec requires that no action fire after stop(). -/
theorem c1_actions_fire_after_stop :
    (∀ (e : Engine) (i : Nat), (stopEngine e).timeouts i = e.timeouts i) ∧
    c1EngineAfterMatch.timeouts 0 = some c1Rule ∧
    (stopEngine c1EngineAfterMatch).timeouts 0 = some c1Rule ∧
    (fireTimeout c1Resolve c1GetState "z2m" (stopEngine c1EngineAfterMatch) 0).2 =
      [("z2m/lamp/set", Payload.stateObj (some (Value.str "ON")))] := by
  refine ⟨fun e i => rfl, by decide, by decide, by decide⟩
